import Mathlib

/-!
Shallow embedding of the process-orchestration core of `src/app/main.py`
(Xfce desktop bootstrap for HuggingFace Spaces): the sequenced launcher
(`start_desktop_environment` and the four `start_*` role functions), the
command runner (`run_command`), the liveness probe (`check_desktop_status`)
and the status endpoint (`api_status`).

OS effects are modelled by an explicit `World` state threaded through every
function; Python exceptions are modelled by `Except String`.  An uncaught
exception propagates as `Except.error`, while the state reached so far is
kept (side effects performed before the exception survive, as in Python).
-/

/-- A live entry of the OS process table: executable name plus argument list
(as handed to `subprocess.Popen`). -/
structure Proc where
  exe : String
  args : List String
deriving DecidableEq, Repr

/-- Full command line of a process, as matched by `pgrep -f`. -/
def cmdline (p : Proc) : String :=
  String.intercalate " " (p.exe :: p.args)

/-- Observable events of a run, each stamped with the model clock:
forceful kill of processes by name (`pkill -9`), a `Popen` spawn,
a file write, and a `chmod`. -/
inductive Event where
  | kill (pat : String) (t : Nat)
  | spawn (exe : String) (t : Nat)
  | fileWrite (path : String) (t : Nat)
  | chmodEv (path : String) (mode : Nat) (t : Nat)
deriving DecidableEq, Repr

/-- The modelled OS state.
`procs` is the process table; `files` maps (most recent entry first) a path
to its content and permission mode; `now` is the clock advanced by
`time.sleep`; `events` is the trace of the run.
The remaining fields are environment oracles: `spawnErr exe` is the
exception message `subprocess.Popen` raises for that executable (`none` =
spawn succeeds), `alive exe` says whether a spawned process stays alive in
the table, `exitOk exe` models `returncode == 0`, `fileErr` is the
exception raised by opening/writing a file, and `pgrepErr` the exception
raised by the process-table query in `subprocess.run(["pgrep", ...])`. -/
structure World where
  procs : List Proc
  files : List (String × String × Nat)
  now : Nat
  events : List Event
  spawnErr : String → Option String
  alive : String → Bool
  exitOk : String → Bool
  fileErr : Option String
  pgrepErr : Option String

/-- Keyword arguments accepted by `subprocess.Popen` among those the source
uses; `preprocess` (the typo in `run_command`'s non-shell branch) is not
one of them, so passing it raises `TypeError`. -/
def popenValidKwargs : List String :=
  ["shell", "stdout", "stderr", "env", "preexec_fn"]

/-- First keyword argument of a call that `Popen` does not accept. -/
def invalidKwarg (kwargs : List String) : Option String :=
  kwargs.find? (fun k => !(popenValidKwargs.contains k))

/-- `time.sleep n`: advance the model clock. -/
def sleep (n : Nat) (w : World) : World :=
  { w with now := w.now + n }

/-- `pat` is a leading piece of `s` (character lists). -/
def prefixAt : List Char → List Char → Bool
  | [], _ => true
  | _ :: _, [] => false
  | a :: pa, b :: pb => a == b && prefixAt pa pb

/-- `pat` occurs somewhere inside `s` (character lists). -/
def occursIn (pat s : List Char) : Bool :=
  match s with
  | [] => prefixAt pat []
  | _ :: rest => prefixAt pat s || occursIn pat rest

/-- Split a command string into its space-separated words, as the shell
does for the simple commands the source passes to `shell=True`. -/
def wordsAux (cur : List Char) : List Char → List String
  | [] => [String.mk cur.reverse]
  | c :: rest =>
      if c == ' ' then String.mk cur.reverse :: wordsAux [] rest
      else wordsAux (c :: cur) rest

/-- Words of a shell command string. -/
def shellWords (s : String) : List String := wordsAux [] s.data

/-- `subprocess.Popen(cmd, **kwargs)`.  An unknown keyword argument raises
`TypeError` before anything is spawned.  Spawning `pkill -9 pat` removes
every table entry whose executable equals `pat` (forceful termination by
name).  Any other spawn enters the table, unless the environment says the
process dies immediately (`alive exe = false`); either way the spawn event
is recorded and a handle is returned. -/
def popen (cmd : List String) (kwargs : List String) (w : World) :
    Except String Proc × World :=
  match invalidKwarg kwargs with
  | some k =>
      (.error ("TypeError: unexpected keyword argument " ++ k), w)
  | none =>
    match cmd with
    | [] => (.error "IndexError: list index out of range", w)
    | exe :: args =>
      match w.spawnErr exe with
      | some e => (.error e, w)
      | none =>
        if exe == "pkill" then
          (.ok ⟨exe, args⟩,
            { w with
                procs := w.procs.filter (fun p => p.exe != args.getD 1 "")
                events := w.events ++ [Event.kill (args.getD 1 "") w.now] })
        else
          (.ok ⟨exe, args⟩,
            { w with
                procs :=
                  if w.alive exe then w.procs ++ [⟨exe, args⟩] else w.procs
                events := w.events ++ [Event.spawn exe w.now] })

/-- Result of `run_command`: a boolean (`wait=True`, or `False` after a
caught exception) or a process handle (`wait=False`). -/
inductive RunResult where
  | bool (b : Bool)
  | proc (p : Proc)
deriving DecidableEq, Repr

/-- `run_command(command, wait, shell)` from `src/app/main.py`.
The shell branch splits the command string into words and spawns it with
the keyword arguments `shell, stdout, stderr, preexec_fn`; the non-shell
branch passes the misspelled keyword `preprocess` instead of `preexec_fn`.
Every exception is caught, logged and turned into `False`. -/
def run_command (command : String) (wait : Bool) (shell : Bool) (w : World) :
    RunResult × World :=
  let r :=
    if shell then
      popen (shellWords command) ["shell", "stdout", "stderr", "preexec_fn"] w
    else
      popen [command] ["stdout", "stderr", "preprocess"] w
  match r with
  | (.error _e, w) => (.bool false, w)
  | (.ok p, w) =>
      if wait then (.bool (w.exitOk p.exe), w)
      else (.proc p, w)

/-- Shared configuration, read from the environment once at startup. -/
structure Config where
  VNC_PASSWORD : String
  RESOLUTION : String
  VNC_PORT : String

/-- `open(path, "w"); f.write(content)`: create or truncate the file with
the default mode 0644; an I/O failure raises. -/
def writeFileW (path content : String) (w : World) :
    Except String Unit × World :=
  match w.fileErr with
  | some e => (.error e, w)
  | none =>
      (.ok (),
        { w with
            files := (path, content, 420) :: w.files.filter (fun f => f.1 != path)
            events := w.events ++ [Event.fileWrite path w.now] })

/-- `os.chmod(path, mode)`: update the mode of an existing entry. -/
def chmodW (path : String) (mode : Nat) (w : World) :
    Except String Unit × World :=
  (.ok (),
    { w with
        files := w.files.map (fun f => if f.1 == path then (f.1, f.2.1, mode) else f)
        events := w.events ++ [Event.chmodEv path mode w.now] })

/-- Content and mode of a file, if it exists. -/
def fileEntry (w : World) (path : String) : Option (String × Nat) :=
  (w.files.find? (fun f => f.1 == path)).map (fun f => (f.2.1, f.2.2))

/-- `start_xvfb()`: pkill old Xvfb instances (failures caught inside
`run_command`), sleep 1, spawn `Xvfb :1 -screen 0 {RESOLUTION}x24 -ac
+extension GLX` (an exception here is NOT caught), sleep 2, return True. -/
def start_xvfb (cfg : Config) (w : World) : Except String Bool × World :=
  let (_, w) := run_command "pkill -9 Xvfb" false true w
  let w := sleep 1 w
  match popen ["Xvfb", ":1", "-screen", "0", cfg.RESOLUTION ++ "x24", "-ac",
               "+extension", "GLX"]
        ["stdout", "stderr", "preexec_fn"] w with
  | (.error e, w) => (.error e, w)
  | (.ok _p, w) => (.ok true, sleep 2 w)

/-- `start_xfce()`: spawn `startxfce4` with `DISPLAY=:1` in the environment
(no pkill of a prior instance, no exception handling), sleep 3,
return True. -/
def start_xfce (_cfg : Config) (w : World) : Except String Bool × World :=
  match popen ["startxfce4"] ["stdout", "stderr", "env", "preexec_fn"] w with
  | (.error e, w) => (.error e, w)
  | (.ok _p, w) => (.ok true, sleep 3 w)

/-- `start_vnc_server()`: write `VNC_PASSWORD + "\n"` to `/tmp/vnc_passwd`
and chmod it to 0600 (exceptions in this block are caught and logged),
pkill old x11vnc instances, sleep 1, spawn x11vnc with `-rfbport VNC_PORT
-rfbauth /tmp/vnc_passwd` (exception not caught), sleep 2, return True. -/
def start_vnc_server (cfg : Config) (w : World) : Except String Bool × World :=
  let w :=
    match writeFileW "/tmp/vnc_passwd" (cfg.VNC_PASSWORD ++ "\n") w with
    | (.error _e, w) => w
    | (.ok _, w) =>
      match chmodW "/tmp/vnc_passwd" 384 w with
      | (_, w) => w
  let (_, w) := run_command "pkill -9 x11vnc" false true w
  let w := sleep 1 w
  match popen ["x11vnc", "-display", ":1", "-localhost", "-forever", "-shared",
               "-rfbport", cfg.VNC_PORT, "-rfbauth", "/tmp/vnc_passwd",
               "-o", "/tmp/x11vnc.log", "-bg"]
        ["stdout", "stderr", "preexec_fn"] w with
  | (.error e, w) => (.error e, w)
  | (.ok _p, w) => (.ok true, sleep 2 w)

/-- `start_websockify()`: pkill old websockify instances, sleep 1, spawn
`websockify --web /home/user/novnc 6080 localhost:5900` (the target port
is the fixed literal `localhost:5900`, not built from `VNC_PORT`;
exception not caught), sleep 2, return True. -/
def start_websockify (_cfg : Config) (w : World) : Except String Bool × World :=
  let (_, w) := run_command "pkill -9 websockify" false true w
  let w := sleep 1 w
  match popen ["websockify", "--web", "/home/user/novnc", "6080",
               "localhost:5900"]
        ["stdout", "stderr", "preexec_fn"] w with
  | (.error e, w) => (.error e, w)
  | (.ok _p, w) => (.ok true, sleep 2 w)

/-- `start_desktop_environment()`: run the four role starters in order with
no exception handling of its own, then return True. -/
def start_desktop_environment (cfg : Config) (w : World) :
    Except String Bool × World :=
  match start_xvfb cfg w with
  | (.error e, w) => (.error e, w)
  | (.ok _, w) =>
    match start_xfce cfg w with
    | (.error e, w) => (.error e, w)
    | (.ok _, w) =>
      match start_vnc_server cfg w with
      | (.error e, w) => (.error e, w)
      | (.ok _, w) =>
        match start_websockify cfg w with
        | (.error e, w) => (.error e, w)
        | (.ok _, w) => (.ok true, w)

/-- `s` contains `pat` as a substring (how `pgrep -f pat` matches a full
command line). -/
def containsSub (s pat : String) : Bool :=
  occursIn pat.data s.data

/-- `subprocess.run(["pgrep", "-f", pat])`: raises if the process-table
query itself fails, otherwise reports (via `returncode == 0`) whether some
process's command line contains `pat`. -/
def pgrepRun (pat : String) (w : World) : Except String Bool :=
  match w.pgrepErr with
  | some e => .error e
  | none => .ok (w.procs.any (fun p => containsSub (cmdline p) pat))

/-- The JSON value returned by `check_desktop_status`: either the snapshot
`{"xvfb": _, "vnc": _, "websockify": _, "ready": _}` or the error object
`{"error": msg}`. -/
inductive Status where
  | snapshot (xvfb vnc websockify ready : Bool)
  | err (msg : String)
deriving DecidableEq, Repr

/-- `check_desktop_status()`: pgrep for `Xvfb`, `x11vnc` and `websockify`;
`ready` is the conjunction of the three.  If a query raises, the exception
is caught and `{"error": str(e)}` is returned instead. -/
def check_desktop_status (w : World) : Status :=
  match pgrepRun "Xvfb" w with
  | .error e => .err e
  | .ok xvfb_running =>
    match pgrepRun "x11vnc" w with
    | .error e => .err e
    | .ok vnc_running =>
      match pgrepRun "websockify" w with
      | .error e => .err e
      | .ok ws_running =>
          .snapshot xvfb_running vnc_running ws_running
            (xvfb_running && vnc_running && ws_running)

/-- `/api/status` route: `jsonify(check_desktop_status())`, returned as is. -/
def api_status (w : World) : Status :=
  check_desktop_status w

/-- A role reports running when some process's command line contains the
role's pgrep pattern. -/
def roleRunning (w : World) (pat : String) : Bool :=
  w.procs.any (fun p => containsSub (cmdline p) pat)

/-- The four managed roles in bootstrap order: DisplayServer (`Xvfb`),
WindowSession (`startxfce4`), RemoteDisplayServer (`x11vnc`),
WebSocketBridge (`websockify`). -/
def roleNames : List String := ["Xvfb", "startxfce4", "x11vnc", "websockify"]

/-- Each role paired with its settle delay (the `time.sleep` after its
spawn): 2, 3, 2 and 2 seconds. -/
def roleSeq : List (String × Nat) :=
  [("Xvfb", 2), ("startxfce4", 3), ("x11vnc", 2), ("websockify", 2)]

/-- Clock values at which a given executable was spawned during a trace. -/
def spawnTimes (tr : List Event) (name : String) : List Nat :=
  tr.filterMap fun e =>
    match e with
    | Event.spawn x t => if x == name then some t else none
    | _ => none

/-- Executables spawned during a trace, in order of spawning
(`pkill` kills are recorded separately and do not appear here). -/
def spawnNames (tr : List Event) : List String :=
  tr.filterMap fun e =>
    match e with
    | Event.spawn x _ => some x
    | _ => none

/-- Every spawn of a role happens only at or after some spawn of the
previous role plus that previous role's settle delay. -/
def settleRespected (tr : List Event) : Bool :=
  (roleSeq.zip roleSeq.tail).all fun pr =>
    (spawnTimes tr pr.2.1).all fun t2 =>
      (spawnTimes tr pr.1.1).any fun t1 => decide (t1 + pr.1.2 ≤ t2)

/-- The first spawn of `name` in the trace is preceded by a forceful kill
of `name` (false when `name` is never spawned). -/
def killPrecedesSpawn (tr : List Event) (name : String) : Bool :=
  match tr.findIdx? (fun e =>
      match e with | Event.spawn x _ => x == name | _ => false) with
  | none => false
  | some i =>
      (tr.take i).any (fun e =>
        match e with | Event.kill x _ => x == name | _ => false)

/-- Number of process-table entries whose executable is `r`. -/
def countExe (l : List Proc) (r : String) : Nat :=
  (l.filter (fun p => p.exe == r)).length

/-- The default configuration of the source
(`VNC_PASSWORD=huggingface`, `RESOLUTION=1280x720`, `VNC_PORT=5900`). -/
def cfg0 : Config :=
  { VNC_PASSWORD := "huggingface", RESOLUTION := "1280x720", VNC_PORT := "5900" }

/-- Same configuration but with the remote-display port set to 5901. -/
def cfgB : Config :=
  { VNC_PASSWORD := "huggingface", RESOLUTION := "1280x720", VNC_PORT := "5901" }

/-- A clean environment: empty process table, empty filesystem, clock at
zero, every spawn succeeds and stays alive, file writes and process-table
queries succeed. -/
def world0 : World :=
  { procs := [], files := [], now := 0, events := [],
    spawnErr := fun _ => none, alive := fun _ => true,
    exitOk := fun _ => true, fileErr := none, pgrepErr := none }

/-- Process table holding Xvfb, x11vnc and websockify but no running
window session (`startxfce4`). -/
def wC1 : World :=
  { world0 with procs := [⟨"Xvfb", []⟩, ⟨"x11vnc", []⟩, ⟨"websockify", []⟩] }

/-- Process table already holding a stale `startxfce4` instance. -/
def wC2 : World :=
  { world0 with procs := [⟨"startxfce4", []⟩] }

/-- Environment in which spawning `Xvfb` raises `FileNotFoundError` and
every other spawn would succeed. -/
def wC3 : World :=
  { world0 with
      spawnErr := fun e => if e == "Xvfb" then some "FileNotFoundError" else none }

/-- Environment in which the process-table query itself raises. -/
def wErr : World :=
  { world0 with pgrepErr := some "boom" }

/-- Environment in which every spawn succeeds but every spawned process
dies immediately (is never seen in the process table). -/
def wDead : World :=
  { world0 with alive := fun _ => false }

/-! ### Helper lemmas -/

/-- The keyword-argument sets the source passes to `Popen` directly are all
valid. -/
theorem invalidKwarg_role : invalidKwarg ["stdout", "stderr", "preexec_fn"] = none := rfl

theorem invalidKwarg_env :
    invalidKwarg ["stdout", "stderr", "env", "preexec_fn"] = none := rfl

theorem invalidKwarg_shell :
    invalidKwarg ["shell", "stdout", "stderr", "preexec_fn"] = none := rfl

/-- The non-shell branch of `run_command` passes the misspelled keyword
`preprocess`, which `Popen` rejects. -/
theorem invalidKwarg_nonshell :
    invalidKwarg ["stdout", "stderr", "preprocess"] = some "preprocess" := rfl

theorem shellWords_pkill_xvfb : shellWords "pkill -9 Xvfb" = ["pkill", "-9", "Xvfb"] := rfl

theorem shellWords_pkill_x11vnc :
    shellWords "pkill -9 x11vnc" = ["pkill", "-9", "x11vnc"] := rfl

theorem shellWords_pkill_websockify :
    shellWords "pkill -9 websockify" = ["pkill", "-9", "websockify"] := rfl

/-- When the process-table query works, `check_desktop_status` returns the
three per-role booleans and their conjunction as `ready`. -/
theorem check_status_ok (w : World) (h : w.pgrepErr = none) :
    check_desktop_status w =
      Status.snapshot (roleRunning w "Xvfb") (roleRunning w "x11vnc")
        (roleRunning w "websockify")
        (roleRunning w "Xvfb" && roleRunning w "x11vnc" && roleRunning w "websockify") := by
  simp [check_desktop_status, pgrepRun, h, roleRunning]

/-! ### Claim theorems -/

/-- C9: for every command and every value of the wait flag, `run_command`
with `shell=False` returns `False` and spawns no process (the world is
unchanged): the non-shell branch passes the invalid keyword argument
`preprocess` to `Popen`, which raises `TypeError` before spawning, and the
handler turns the exception into `False`. -/
theorem c9_nonshell_always_false (command : String) (wait : Bool) (w : World) :
    run_command command wait false w = (RunResult.bool false, w) := by
  simp [run_command, popen, invalidKwarg_nonshell]

/-- C1 counterexample: with Xvfb, x11vnc and websockify present but no
`startxfce4` process, the probe reports `ready = true` even though the
WindowSession role is not running, and the snapshot carries no
WindowSession boolean at all — refuting the claim that the snapshot covers
all four roles and that `ready` is the conjunction of four role bits. -/
theorem c1_counterexample :
    check_desktop_status wC1 = Status.snapshot true true true true ∧
    roleRunning wC1 "startxfce4" = false := by decide

/-- C1 (amended): the snapshot contains a boolean for the three probed
roles (DisplayServer, RemoteDisplayServer, WebSocketBridge) — the
WindowSession role is not probed — each boolean true iff some process's
command line matches the role's pattern, and `ready` is the conjunction
of exactly those three booleans. -/
theorem c1_amended (w : World) (h : w.pgrepErr = none) :
    check_desktop_status w =
      Status.snapshot (roleRunning w "Xvfb") (roleRunning w "x11vnc")
        (roleRunning w "websockify")
        (roleRunning w "Xvfb" && roleRunning w "x11vnc" && roleRunning w "websockify") :=
  check_status_ok w h

/-- C1 witness: the amended statement evaluated on the process table of the
counterexample world. -/
theorem c1_witness :
    check_desktop_status wC1 =
      Status.snapshot (roleRunning wC1 "Xvfb") (roleRunning wC1 "x11vnc")
        (roleRunning wC1 "websockify")
        (roleRunning wC1 "Xvfb" && roleRunning wC1 "x11vnc" && roleRunning wC1 "websockify") :=
  c1_amended wC1 rfl

/-- C8: if the process-table query inside the probe raises, the status
endpoint returns the distinct error object carrying the raised error, not a
snapshot; when the query succeeds it returns the probe's snapshot
unchanged. -/
theorem c8_error_object (w : World) :
    (∀ e, w.pgrepErr = some e → api_status w = Status.err e) ∧
    (w.pgrepErr = none →
      api_status w = check_desktop_status w ∧
      check_desktop_status w =
        Status.snapshot (roleRunning w "Xvfb") (roleRunning w "x11vnc")
          (roleRunning w "websockify")
          (roleRunning w "Xvfb" && roleRunning w "x11vnc" && roleRunning w "websockify")) := by
  refine ⟨fun e he => ?_, fun h => ⟨rfl, check_status_ok w h⟩⟩
  simp [api_status, check_desktop_status, pgrepRun, he]

/-- C8 witness: a failing query yields the error object, a working query
yields the snapshot unchanged. -/
theorem c8_witness :
    api_status wErr = Status.err "boom" ∧
    api_status world0 = check_desktop_status world0 :=
  ⟨(c8_error_object wErr).1 "boom" rfl, ((c8_error_object world0).2 rfl).1⟩

/-- C4 counterexample: with the default secret `huggingface`, the
credentials file written before the RemoteDisplayServer spawn contains
`"huggingface\n"` — the secret plus a trailing newline — not exactly the
configured secret. -/
theorem c4_counterexample :
    fileEntry (start_vnc_server cfg0 world0).2 "/tmp/vnc_passwd" =
      some ("huggingface\n", 384) ∧
    cfg0.VNC_PASSWORD = "huggingface" ∧
    ("huggingface\n" : String) ≠ "huggingface" := by decide

/-- C4 (amended): after the pre-launch action of the RemoteDisplayServer
role, the credentials file exists with mode 0600 and its content is the
configured secret followed by a single newline, and the write and chmod
happen before the role's process is spawned. -/
theorem c4_amended (cfg : Config) (w : World)
    (hf : w.fileErr = none) (hp : w.spawnErr "pkill" = none)
    (hv : w.spawnErr "x11vnc" = none) (hev : w.events = []) (hnow : w.now = 0) :
    fileEntry (start_vnc_server cfg w).2 "/tmp/vnc_passwd" =
      some (cfg.VNC_PASSWORD ++ "\n", 384) ∧
    (start_vnc_server cfg w).2.events =
      [Event.fileWrite "/tmp/vnc_passwd" 0,
       Event.chmodEv "/tmp/vnc_passwd" 384 0,
       Event.kill "x11vnc" 0,
       Event.spawn "x11vnc" 1] := by
  simp [start_vnc_server, writeFileW, chmodW, run_command, popen, sleep,
    invalidKwarg_shell, invalidKwarg_role, shellWords_pkill_x11vnc,
    fileEntry, List.getD, hf, hp, hv, hev, hnow]

/-- C4 witness: the amended statement evaluated at the default
configuration in a clean environment. -/
theorem c4_witness :
    fileEntry (start_vnc_server cfg0 world0).2 "/tmp/vnc_passwd" =
      some (cfg0.VNC_PASSWORD ++ "\n", 384) ∧
    (start_vnc_server cfg0 world0).2.events =
      [Event.fileWrite "/tmp/vnc_passwd" 0,
       Event.chmodEv "/tmp/vnc_passwd" 384 0,
       Event.kill "x11vnc" 0,
       Event.spawn "x11vnc" 1] :=
  c4_amended cfg0 world0 rfl rfl rfl rfl rfl

/-- C5 counterexample: with the remote-display port configured to 5901,
the WebSocketBridge is still spawned with target `localhost:5900`; the
configured port appears nowhere in its arguments, so the bridge's spawn
arguments are not constructed from the configured port. -/
theorem c5_counterexample :
    cfgB.VNC_PORT = "5901" ∧
    (start_websockify cfgB world0).2.procs =
      [⟨"websockify", ["--web", "/home/user/novnc", "6080", "localhost:5900"]⟩] ∧
    "5901" ∉ (["--web", "/home/user/novnc", "6080", "localhost:5900"] : List String) := by
  decide

/-- C5 (amended): for every configured port, the WebSocketBridge role is
spawned with the fixed argument list
`--web /home/user/novnc 6080 localhost:5900`; the bridge targets the
constant port 5900, so the wiring to the RemoteDisplayServer holds only
when the configured port is the default 5900. -/
theorem c5_amended (cfg : Config) (w : World)
    (hp : w.spawnErr "pkill" = none) (hw : w.spawnErr "websockify" = none)
    (ha : w.alive "websockify" = true) :
    (start_websockify cfg w).2.procs =
      w.procs.filter (fun p => p.exe != "websockify") ++
        [⟨"websockify", ["--web", "/home/user/novnc", "6080", "localhost:5900"]⟩] := by
  simp [start_websockify, run_command, popen, sleep, invalidKwarg_shell,
    invalidKwarg_role, shellWords_pkill_websockify, List.getD, hp, hw, ha]

/-- C5 witness: the amended statement evaluated at the port-5901
configuration in a clean environment. -/
theorem c5_witness :
    (start_websockify cfgB world0).2.procs =
      world0.procs.filter (fun p => p.exe != "websockify") ++
        [⟨"websockify", ["--web", "/home/user/novnc", "6080", "localhost:5900"]⟩] :=
  c5_amended cfgB world0 rfl rfl rfl

/-- C3 counterexample: when spawning the DisplayServer raises
`FileNotFoundError`, bootstrap propagates the exception (it is not logged
and survived) and no role at all is spawned — WindowSession,
RemoteDisplayServer and WebSocketBridge are never attempted. -/
theorem c3_counterexample :
    (start_desktop_environment cfg0 wC3).1 = Except.error "FileNotFoundError" ∧
    spawnNames (start_desktop_environment cfg0 wC3).2.events = [] :=
  ⟨rfl, by decide⟩

/-- C3 (amended): a role spawn failure is not caught: if the
DisplayServer's `Popen` raises, `start_desktop_environment` aborts with
that exception and no later role is attempted (only the reap commands,
run through `run_command`, and the credentials-file write have their
failures caught). -/
theorem c3_amended (cfg : Config) (w : World) (e : String)
    (hx : w.spawnErr "Xvfb" = some e) (hp : w.spawnErr "pkill" = none)
    (hev : w.events = []) :
    (start_desktop_environment cfg w).1 = Except.error e ∧
    spawnNames (start_desktop_environment cfg w).2.events = [] := by
  simp [start_desktop_environment, start_xvfb, run_command, popen, sleep,
    invalidKwarg_shell, invalidKwarg_role, shellWords_pkill_xvfb, List.getD,
    spawnNames, hx, hp, hev]

/-- C3 witness: the amended statement evaluated in the environment where
Xvfb is missing. -/
theorem c3_witness :
    (start_desktop_environment cfg0 wC3).1 = Except.error "FileNotFoundError" ∧
    spawnNames (start_desktop_environment cfg0 wC3).2.events = [] :=
  c3_amended cfg0 wC3 "FileNotFoundError" (by decide) (by decide) rfl

/-- C10: whenever no spawn raises, every role starter returns `True` and
bootstrap returns `True`, for every environment — in particular for
environments in which every spawned process dies immediately, so the
result carries no information about actual role liveness. -/
theorem c10_blind_success (cfg : Config) (w : World)
    (h : w.spawnErr = fun _ => none) :
    (start_xvfb cfg w).1 = Except.ok true ∧
    (start_xfce cfg w).1 = Except.ok true ∧
    (start_vnc_server cfg w).1 = Except.ok true ∧
    (start_websockify cfg w).1 = Except.ok true ∧
    (start_desktop_environment cfg w).1 = Except.ok true := by
  have hs : ∀ s, w.spawnErr s = none := fun s => by rw [h]
  cases hfe : w.fileErr <;>
    simp [start_desktop_environment, start_xvfb, start_xfce, start_vnc_server,
      start_websockify, run_command, popen, writeFileW, chmodW, sleep,
      invalidKwarg_shell, invalidKwarg_role, invalidKwarg_env,
      shellWords_pkill_xvfb, shellWords_pkill_x11vnc, shellWords_pkill_websockify,
      List.getD, hs, hfe]

/-- C10 witness: in the environment where every spawned process dies at
once, bootstrap still reports success while the probe sees nothing
running. -/
theorem c10_witness :
    (start_desktop_environment cfg0 wDead).1 = Except.ok true ∧
    check_desktop_status (start_desktop_environment cfg0 wDead).2 =
      Status.snapshot false false false false :=
  ⟨(c10_blind_success cfg0 wDead rfl).2.2.2.2, by decide⟩

/-- C7: with resolution `1280x720` and port `5900`, after bootstrap the
DisplayServer process carries the argument `1280x720x24` (bit depth 24
appended to the resolution) and the RemoteDisplayServer process carries
the argument `5900`. -/
theorem c7_concrete_args (pwd : String) (w : World)
    (h : w.spawnErr = fun _ => none) (ha : w.alive = fun _ => true)
    (hf : w.fileErr = none) :
    (∃ p ∈ (start_desktop_environment ⟨pwd, "1280x720", "5900"⟩ w).2.procs,
        p.exe = "Xvfb" ∧ "1280x720x24" ∈ p.args) ∧
    (∃ p ∈ (start_desktop_environment ⟨pwd, "1280x720", "5900"⟩ w).2.procs,
        p.exe = "x11vnc" ∧ "5900" ∈ p.args) := by
  have hs : ∀ s, w.spawnErr s = none := fun s => by rw [h]
  have hal : ∀ s, w.alive s = true := fun s => by rw [ha]
  simp [start_desktop_environment, start_xvfb, start_xfce, start_vnc_server,
    start_websockify, run_command, popen, writeFileW, chmodW, sleep,
    invalidKwarg_shell, invalidKwarg_role, invalidKwarg_env,
    shellWords_pkill_xvfb, shellWords_pkill_x11vnc, shellWords_pkill_websockify,
    List.getD, hs, hal, hf]
  refine ⟨⟨⟨"Xvfb", [":1", "-screen", "0", "1280x720x24", "-ac", "+extension", "GLX"]⟩,
            Or.inr (Or.inl rfl), rfl, by decide⟩,
          ⟨⟨"x11vnc", ["-display", ":1", "-localhost", "-forever", "-shared", "-rfbport",
                       "5900", "-rfbauth", "/tmp/vnc_passwd", "-o", "/tmp/x11vnc.log", "-bg"]⟩,
            Or.inr (Or.inr (Or.inr (Or.inl rfl))), rfl, by decide⟩⟩

/-- C7 witness: the statement evaluated at the default configuration in a
clean environment. -/
theorem c7_witness :
    (∃ p ∈ (start_desktop_environment ⟨"huggingface", "1280x720", "5900"⟩ world0).2.procs,
        p.exe = "Xvfb" ∧ "1280x720x24" ∈ p.args) ∧
    (∃ p ∈ (start_desktop_environment ⟨"huggingface", "1280x720", "5900"⟩ world0).2.procs,
        p.exe = "x11vnc" ∧ "5900" ∈ p.args) :=
  c7_concrete_args "huggingface" world0 rfl rfl rfl

/-- Counting a role's processes distributes over append. -/
theorem countExe_append (l l' : List Proc) (r : String) :
    countExe (l ++ l') r = countExe l r + countExe l' r := by
  simp [countExe, List.filter_append]

theorem countExe_nil (r : String) : countExe [] r = 0 := rfl

theorem countExe_cons (p : Proc) (l : List Proc) (r : String) :
    countExe (p :: l) r = countExe l r + (if p.exe == r then 1 else 0) := by
  by_cases h : p.exe = r <;> simp [countExe, List.filter_cons, h]

/-- After `pkill -9 r` removed every process named `r`, none are left. -/
theorem countExe_filter_self (l : List Proc) (r : String) :
    countExe (l.filter (fun p => p.exe != r)) r = 0 := by
  induction l with
  | nil => rfl
  | cons a l ih =>
      by_cases h : a.exe = r
      · simp [List.filter_cons, h]
        exact ih
      · simp [countExe, List.filter_cons, h]

/-- Removing processes never increases a role's count. -/
theorem countExe_filter_le (l : List Proc) (q : Proc → Bool) (r : String) :
    countExe (l.filter q) r ≤ countExe l r := by
  have h : List.Sublist (l.filter q) l := List.filter_sublist l
  exact (h.filter _).length_le

/-- A clean bootstrap run (no spawn failure, processes stay alive, file
writes succeed, clock and trace starting empty) produces exactly the four
role processes appended to the reaped original table, and the nine-event
trace with the settle delays between spawns. -/
theorem bootstrap_clean_run (cfg : Config) (w : World)
    (h : w.spawnErr = fun _ => none) (ha : w.alive = fun _ => true)
    (hf : w.fileErr = none) (hev : w.events = []) (hnow : w.now = 0) :
    (start_desktop_environment cfg w).2.procs =
      (((w.procs.filter (fun p => p.exe != "Xvfb")).filter
          (fun p => p.exe != "x11vnc")).filter (fun p => p.exe != "websockify")) ++
        [⟨"Xvfb", [":1", "-screen", "0", cfg.RESOLUTION ++ "x24", "-ac", "+extension", "GLX"]⟩,
         ⟨"startxfce4", []⟩,
         ⟨"x11vnc", ["-display", ":1", "-localhost", "-forever", "-shared", "-rfbport",
                     cfg.VNC_PORT, "-rfbauth", "/tmp/vnc_passwd", "-o", "/tmp/x11vnc.log", "-bg"]⟩,
         ⟨"websockify", ["--web", "/home/user/novnc", "6080", "localhost:5900"]⟩] ∧
    (start_desktop_environment cfg w).2.events =
      [Event.kill "Xvfb" 0, Event.spawn "Xvfb" 1, Event.spawn "startxfce4" 3,
       Event.fileWrite "/tmp/vnc_passwd" 6, Event.chmodEv "/tmp/vnc_passwd" 384 6,
       Event.kill "x11vnc" 6, Event.spawn "x11vnc" 7,
       Event.kill "websockify" 9, Event.spawn "websockify" 10] := by
  have hs : ∀ s, w.spawnErr s = none := fun s => by rw [h]
  have hal : ∀ s, w.alive s = true := fun s => by rw [ha]
  simp [start_desktop_environment, start_xvfb, start_xfce, start_vnc_server,
    start_websockify, run_command, popen, writeFileW, chmodW, sleep,
    invalidKwarg_shell, invalidKwarg_role, invalidKwarg_env,
    shellWords_pkill_xvfb, shellWords_pkill_x11vnc, shellWords_pkill_websockify,
    List.getD, hs, hal, hf, hev, hnow]

/-- Each role occurs exactly once among the four newly spawned processes,
whatever their argument lists. -/
theorem tail_count_xvfb (A B C D : List String) :
    countExe [⟨"Xvfb", A⟩, ⟨"startxfce4", B⟩, ⟨"x11vnc", C⟩, ⟨"websockify", D⟩] "Xvfb" = 1 := by
  simp [countExe, List.filter_cons]

theorem tail_count_x11vnc (A B C D : List String) :
    countExe [⟨"Xvfb", A⟩, ⟨"startxfce4", B⟩, ⟨"x11vnc", C⟩, ⟨"websockify", D⟩] "x11vnc" = 1 := by
  simp [countExe, List.filter_cons]

theorem tail_count_websockify (A B C D : List String) :
    countExe [⟨"Xvfb", A⟩, ⟨"startxfce4", B⟩, ⟨"x11vnc", C⟩, ⟨"websockify", D⟩] "websockify" = 1 := by
  simp [countExe, List.filter_cons]

/-- C2 counterexample: starting from a table that already holds a
`startxfce4` process, a clean bootstrap leaves TWO WindowSession
processes — the stale one and the new one — because `start_xfce` issues no
kill; this refutes the claim for the WindowSession role. -/
theorem c2_counterexample :
    countExe (start_desktop_environment cfg0 wC2).2.procs "startxfce4" = 2 := by decide

/-- C2 (amended): for the DisplayServer, RemoteDisplayServer and
WebSocketBridge roles (but not for WindowSession), bootstrap issues a
forceful kill of all processes matching the role's executable name before
spawning the role, so after a clean bootstrap at most one process per such
role is live. -/
theorem c2_amended (cfg : Config) (w : World)
    (h : w.spawnErr = fun _ => none) (ha : w.alive = fun _ => true)
    (hf : w.fileErr = none) (hev : w.events = []) (hnow : w.now = 0) :
    (countExe (start_desktop_environment cfg w).2.procs "Xvfb" ≤ 1 ∧
     countExe (start_desktop_environment cfg w).2.procs "x11vnc" ≤ 1 ∧
     countExe (start_desktop_environment cfg w).2.procs "websockify" ≤ 1) ∧
    (killPrecedesSpawn (start_desktop_environment cfg w).2.events "Xvfb" = true ∧
     killPrecedesSpawn (start_desktop_environment cfg w).2.events "x11vnc" = true ∧
     killPrecedesSpawn (start_desktop_environment cfg w).2.events "websockify" = true) := by
  obtain ⟨hP, hE⟩ := bootstrap_clean_run cfg w h ha hf hev hnow
  have h1 := countExe_filter_self w.procs "Xvfb"
  have h2 := countExe_filter_le (w.procs.filter (fun p => p.exe != "Xvfb"))
    (fun p => p.exe != "x11vnc") "Xvfb"
  have h3 := countExe_filter_le ((w.procs.filter (fun p => p.exe != "Xvfb")).filter
    (fun p => p.exe != "x11vnc")) (fun p => p.exe != "websockify") "Xvfb"
  have h4 := countExe_filter_self (w.procs.filter (fun p => p.exe != "Xvfb")) "x11vnc"
  have h5 := countExe_filter_le ((w.procs.filter (fun p => p.exe != "Xvfb")).filter
    (fun p => p.exe != "x11vnc")) (fun p => p.exe != "websockify") "x11vnc"
  have h6 := countExe_filter_self ((w.procs.filter (fun p => p.exe != "Xvfb")).filter
    (fun p => p.exe != "x11vnc")) "websockify"
  refine ⟨⟨?_, ?_, ?_⟩, by rw [hE]; decide, by rw [hE]; decide, by rw [hE]; decide⟩
  · rw [hP, countExe_append, tail_count_xvfb]; omega
  · rw [hP, countExe_append, tail_count_x11vnc]; omega
  · rw [hP, countExe_append, tail_count_websockify]; omega

/-- C2 witness: the amended statement evaluated on a table that already
holds a stale WindowSession process. -/
theorem c2_witness :
    (countExe (start_desktop_environment cfg0 wC2).2.procs "Xvfb" ≤ 1 ∧
     countExe (start_desktop_environment cfg0 wC2).2.procs "x11vnc" ≤ 1 ∧
     countExe (start_desktop_environment cfg0 wC2).2.procs "websockify" ≤ 1) ∧
    (killPrecedesSpawn (start_desktop_environment cfg0 wC2).2.events "Xvfb" = true ∧
     killPrecedesSpawn (start_desktop_environment cfg0 wC2).2.events "x11vnc" = true ∧
     killPrecedesSpawn (start_desktop_environment cfg0 wC2).2.events "websockify" = true) :=
  c2_amended cfg0 wC2 rfl rfl rfl rfl rfl

/-- C6: bootstrap spawns the roles in the fixed order DisplayServer,
WindowSession, RemoteDisplayServer, WebSocketBridge — in every environment
(spawns may fail at any stage, the credentials write may fail) the spawned
executables form a prefix of that order and every spawn of a later role
happens only after some spawn of the preceding role plus that role's
settle delay; when no spawn fails, all four are spawned in exactly that
order. -/
theorem c6_order_and_settle (cfg : Config) (w : World)
    (hev : w.events = []) (hnow : w.now = 0) :
    (List.isPrefixOf (spawnNames (start_desktop_environment cfg w).2.events) roleNames = true ∧
     settleRespected (start_desktop_environment cfg w).2.events = true) ∧
    (w.spawnErr = (fun _ => none) →
      spawnNames (start_desktop_environment cfg w).2.events = roleNames) := by
  constructor
  · rcases hpk : w.spawnErr "pkill" with _ | epk <;>
    rcases hxv : w.spawnErr "Xvfb" with _ | exv <;>
    rcases hxf : w.spawnErr "startxfce4" with _ | exf <;>
    rcases hvn : w.spawnErr "x11vnc" with _ | evn <;>
    rcases hws : w.spawnErr "websockify" with _ | ews <;>
    rcases hfe : w.fileErr with _ | efe <;>
    simp [start_desktop_environment, start_xvfb, start_xfce, start_vnc_server,
      start_websockify, run_command, popen, writeFileW, chmodW, sleep,
      invalidKwarg_shell, invalidKwarg_role, invalidKwarg_env,
      shellWords_pkill_xvfb, shellWords_pkill_x11vnc, shellWords_pkill_websockify,
      List.getD, hev, hnow, hpk, hxv, hxf, hvn, hws, hfe] <;>
    decide
  · intro hall
    have hs : ∀ s, w.spawnErr s = none := fun s => by rw [hall]
    rcases hfe : w.fileErr with _ | efe <;>
    simp [start_desktop_environment, start_xvfb, start_xfce, start_vnc_server,
      start_websockify, run_command, popen, writeFileW, chmodW, sleep,
      invalidKwarg_shell, invalidKwarg_role, invalidKwarg_env,
      shellWords_pkill_xvfb, shellWords_pkill_x11vnc, shellWords_pkill_websockify,
      List.getD, hev, hnow, hs, hfe] <;>
    decide

/-- C6 witness: the statement evaluated in a clean environment. -/
theorem c6_witness :
    (List.isPrefixOf (spawnNames (start_desktop_environment cfg0 world0).2.events) roleNames = true ∧
     settleRespected (start_desktop_environment cfg0 world0).2.events = true) ∧
    (world0.spawnErr = (fun _ => none) →
      spawnNames (start_desktop_environment cfg0 world0).2.events = roleNames) :=
  c6_order_and_settle cfg0 world0 rfl rfl
